import Mathlib

deriving instance DecidableEq for Except

/-!
Verification development for the Compounder dashboard (`src/app.py`).

The financial core of the app is shallowly embedded here:
  * `smart_get`            — `app.py` lines 159-162;
  * `process_financials`   — `app.py` lines 177-252, split into the annual
    alignment step (`build_annual`, lines 196-217) and the TTM synthesis step
    (`build_ttm`, lines 219-248);
  * the TTM concat decision — `app.py` lines 795-797 (`ttmConcatIndex`);
  * the windowed ratio computation — `app.py` lines 802-816 (`computeMetrics`);
  * the verdict classifier — `app.py` lines 819-826 (`verdict`).

Python numbers are modelled as rationals (`ℚ`); a JSON `null` inside a series
is modelled as `none` (`Val := Option ℚ`).  A raw statement's field dictionary
is modelled as an association list from field name to a value that is either
`null` or a list (`PyVal := Option (List Val)`); the date fields
(`period_end_date`, `fiscal_year`), whose entries are strings, are modelled as
separate components of the same raw statement.  Exceptions (the `try/except`
around `process_financials`, which converts any raised error into an error
return) are modelled with `Except String`.
-/

namespace Compounder

/-- One numeric-or-null entry of a raw series. -/
abbrev Val := Option ℚ

/-- A value stored in a raw statement dictionary: `null` or a list of entries. -/
abbrev PyVal := Option (List Val)

/-- A raw financial statement: the numeric field dictionary plus the two
possible date fields (`annual.get("period_end_date", ...)` at line 192).
`none` for a date component models an absent key. -/
structure RawStmt where
  fields : List (String × PyVal)
  period_end_date : Option (List String)
  fiscal_year : Option (List String)
deriving DecidableEq

/-- The payload of one provider response: `raw_data["financials"]["annual"]`
and `raw_data["financials"]["quarterly"]` (lines 179-180). -/
structure RawData where
  annual : RawStmt
  quarterly : RawStmt
deriving DecidableEq

/-- Lines 159-162: `for k in keys_to_try: if k in data_dict: return data_dict[k]`;
returns the value bound to the first candidate key present (exact string
match), `none` when no candidate key is present. -/
def smart_get {α : Type} (data_dict : List (String × α)) : List String → Option α
  | [] => none
  | k :: ks =>
    match data_dict.lookup k with
    | some v => some v
    | none => smart_get data_dict ks

/-- Alias priority list for operating cash flow (lines 183 and 221). -/
def cfoAliases : List String := ["cf_cfo", "cfo", "cash_flow_operating"]

/-- Alias priority list for capital expenditure (lines 184 and 222). -/
def capexAliases : List String := ["capex", "capital_expenditures"]

/-- Alias priority list for total current liabilities (lines 185 and 225). -/
def liabAliases : List String := ["total_current_liabilities", "liabilities_current"]

/-- Alias priority list for total current assets (lines 188 and 226). -/
def caAliases : List String := ["total_current_assets", "current_assets"]

/-- Alias priority list for net PPE (lines 189 and 227). -/
def ppeAliases : List String := ["ppe_net", "net_property_plant_and_equipment"]

/-- Alias priority list for goodwill (lines 190 and 228). -/
def gwAliases : List String := ["goodwill"]

/-- Python's `arr[-n:]` for `n > 0`: the last `n` elements (the whole list
when it has fewer than `n` elements). -/
def lastN {α : Type} (l : List α) (n : ℕ) : List α := l.drop (l.length - n)

/-- Line 217: `str(d).split('-')[0]`, the year prefix of a period date. -/
def yearOf (d : String) : String := (d.splitOn "-").headD ""

/-- Line 192: `annual.get("period_end_date", annual.get("fiscal_year", []))`. -/
def getDates (s : RawStmt) : List String :=
  s.period_end_date.getD (s.fiscal_year.getD [])

/-- Python truthiness test `not x` for a value that is absent, `null`, or a
list (lines 194, 230, 233, 236-239). -/
def falsy : Option PyVal → Bool
  | none => true
  | some none => true
  | some (some l) => l.isEmpty

/-- Lines 199-202: `slice_and_fill` — an absent/empty series becomes
`[0] * length`; otherwise the last `n` entries with `null` replaced by `0`. -/
def slice_and_fill (arr : Option PyVal) (n : ℕ) : List ℚ :=
  match arr with
  | some (some l) =>
    if l.isEmpty then List.replicate n 0
    else (lastN l n).map (fun x => x.getD 0)
  | _ => List.replicate n 0

/-- The aligned annual table built at lines 209-217 (`df_annual`).  The OCF
column is taken raw (`cfo_a[-min_len:]`, possibly containing nulls); the other
columns go through `slice_and_fill`. -/
structure DFAnnual where
  ocf : List Val
  capex : List ℚ
  liabilities : List ℚ
  ppe : List ℚ
  goodwill : List ℚ
  currentAssets : List ℚ
  index : List String
deriving DecidableEq

/-- The candidate aligned table of lines 209-217, before pandas checks that
all columns have equal length. -/
def alignedTable (cfo : List Val) (capex_a liab_a ca_a ppe_a goodwill_a : Option PyVal)
    (dates_a : List String) : DFAnnual :=
  let min_len := min cfo.length dates_a.length
  { ocf := lastN cfo min_len
    capex := slice_and_fill capex_a min_len
    liabilities := slice_and_fill liab_a min_len
    ppe := slice_and_fill ppe_a min_len
    goodwill := slice_and_fill goodwill_a min_len
    currentAssets := slice_and_fill ca_a min_len
    index := (lastN dates_a min_len).map yearOf }

/-- Lines 196-217: compute `min_len = min(len(cfo_a), len(dates_a))`, slice
every column, and construct the DataFrame.  `pd.DataFrame` raises
`ValueError("All arrays must be of the same length")` when the sliced columns
disagree in length; the surrounding `try/except` turns that into an error
return. -/
def build_annual (cfo : List Val) (capex_a liab_a ca_a ppe_a goodwill_a : Option PyVal)
    (dates_a : List String) : Except String DFAnnual :=
  let min_len := min cfo.length dates_a.length
  let t := alignedTable cfo capex_a liab_a ca_a ppe_a goodwill_a dates_a
  if t.capex.length = min_len ∧ t.liabilities.length = min_len ∧
     t.ppe.length = min_len ∧ t.goodwill.length = min_len ∧
     t.currentAssets.length = min_len then
    .ok t
  else .error "All arrays must be of the same length"

/-- Python's built-in `sum` over a raw series slice: raises `TypeError` when a
`null` entry is summed (modelled as an error return through the enclosing
`try/except`). -/
def pySum : List Val → Except String ℚ
  | [] => .ok 0
  | x :: xs => do
    let s ← pySum xs
    match x with
    | some q => .ok (q + s)
    | none => .error "TypeError: unsupported operand types for sum"

/-- Lines 236-237: `xs[-1] if xs else 0` — the last entry of a truthy series
(which may itself be `null`), else the number `0`. -/
def lastOr0 : Option PyVal → Val
  | some (some l) => if l.isEmpty then some 0 else l.getLastD none
  | _ => some 0

/-- Lines 238-239: `xs[-1] if xs and xs[-1] is not None else 0`. -/
def lastNum : Option PyVal → ℚ
  | some (some l) => if l.isEmpty then 0 else (l.getLastD none).getD 0
  | _ => 0

/-- The synthesized TTM row built at lines 241-248 (`df_ttm`).  The
liabilities and current-assets entries can be `null` (lines 236-237 do not
filter nulls), the others are numeric. -/
structure TTMRow where
  ocf : ℚ
  capex : ℚ
  liabilities : Val
  currentAssets : Val
  ppe : ℚ
  goodwill : ℚ
deriving DecidableEq

/-- Lines 230-248: TTM synthesis.  Gated only on the quarterly OCF series
being truthy with at least 4 entries; flow items sum `xs[-4:]`, stock items
take the most recent entry.  Returns `none` (TTM omitted, no error) when the
gate fails. -/
def build_ttm (cfo_q capex_q liab_q ca_q ppe_q goodwill_q : Option PyVal) :
    Except String (Option TTMRow) :=
  match cfo_q with
  | some (some l) =>
    if ¬ l.isEmpty ∧ 4 ≤ l.length then do
      let ttm_ocf ← pySum (lastN l 4)
      let ttm_capex ←
        match capex_q with
        | some (some c) => if ¬ c.isEmpty then pySum (lastN c 4) else pure (0 : ℚ)
        | _ => pure (0 : ℚ)
      pure (some
        { ocf := ttm_ocf
          capex := ttm_capex
          liabilities := lastOr0 liab_q
          currentAssets := lastOr0 ca_q
          ppe := lastNum ppe_q
          goodwill := lastNum goodwill_q })
    else pure none
  | _ => pure none

/-- Lines 177-252: resolve aliases on the annual and quarterly dictionaries,
check the required annual metrics, build the aligned annual table and the
optional TTM row.  Any exception becomes an error return (line 251-252). -/
def process_financials (raw : RawData) : Except String (DFAnnual × Option TTMRow) :=
  let annual := raw.annual.fields
  let quarterly := raw.quarterly.fields
  let cfo_a := smart_get annual cfoAliases
  let dates_a := getDates raw.annual
  match cfo_a with
  | some (some cfo) =>
    if cfo.isEmpty ∨ dates_a.isEmpty then .error "Required annual metrics missing."
    else do
      let df ← build_annual cfo (smart_get annual capexAliases)
        (smart_get annual liabAliases) (smart_get annual caAliases)
        (smart_get annual ppeAliases) (smart_get annual gwAliases) dates_a
      let ttm ← build_ttm (smart_get quarterly cfoAliases)
        (smart_get quarterly capexAliases) (smart_get quarterly liabAliases)
        (smart_get quarterly caAliases) (smart_get quarterly ppeAliases)
        (smart_get quarterly gwAliases)
      pure (df, ttm)
  | _ => .error "Required annual metrics missing."

/-- Lines 795-797: when the selected end period is `"TTM"` and a TTM row was
synthesized, the combined series is the annual table with the TTM row appended
after it; otherwise the annual table alone is used.  Tracked here at the level
of the period index. -/
def ttmConcatIndex (df : DFAnnual) (df_ttm : Option TTMRow) (end_period : String) :
    List String :=
  if end_period = "TTM" ∧ df_ttm.isSome then df.index ++ ["TTM"]
  else df.index

/-- One period of the selected window `df_slice`, with all inputs numeric
(the columns read by lines 803-805). -/
structure Row where
  ocf : ℚ
  capex : ℚ
  liabilities : ℚ
  ppe : ℚ
  goodwill : ℚ
  currentAssets : ℚ
deriving DecidableEq

/-- Line 803, per period: `FCF = OCF - abs(CapEx)`. -/
def fcf (r : Row) : ℚ := r.ocf - |r.capex|

/-- Line 803, column-wise on the OCF and CapEx series. -/
def fcfSeries (ocf capex : List ℚ) : List ℚ :=
  ocf.zipWith (fun o c => o - |c|) capex

/-- Line 805, per period:
`IC = (Current Assets - Liabilities) + PPE + Goodwill`. -/
def ic (r : Row) : ℚ := (r.currentAssets - r.liabilities) + r.ppe + r.goodwill

/-- Line 805, column-wise on the aligned annual table. -/
def icCols (df : DFAnnual) : List ℚ :=
  ((df.currentAssets.zipWith (fun a b => a - b) df.liabilities).zipWith
    (fun a b => a + b) df.ppe).zipWith (fun a b => a + b) df.goodwill

/-- The scalars computed at lines 810-816 for one analysis window. -/
structure Metrics where
  A1 : ℚ
  B1 : ℚ
  A2 : ℚ
  roiic : ℚ
  reinvest : ℚ
  score : ℚ
deriving DecidableEq

/-- Lines 802-816: the windowed ratio computation (guarded by
`len(df_slice) >= 2`).  `FCF[first]`/`FCF[last]` are the first and last rows
of the window. -/
def computeMetrics (w : List Row) : Metrics :=
  let fcfs := w.map fcf
  let ics := w.map ic
  let a1 := fcfs.sum
  let b1 := fcfs.getLastD 0 - fcfs.headD 0
  let a2 := ics.getLastD 0 - ics.headD 0
  let roiic := if a2 ≠ 0 then b1 / a2 else 0
  let reinvest := if a1 ≠ 0 then a2 / a1 else 0
  { A1 := a1, B1 := b1, A2 := a2, roiic := roiic, reinvest := reinvest,
    score := roiic * reinvest }

/-- Lines 819-826: the verdict classifier, a function of the reinvestment
rate alone.  The Python float literals `0.20`, `0.80`, `1.00` are modelled as
the rationals `1/5`, `4/5`, `1`. -/
def verdict (reinvest : ℚ) : String :=
  if reinvest < 1/5 then "Cash Cow"
  else if 4/5 ≤ reinvest ∧ reinvest ≤ 1 then "Aggressive Compounder"
  else if reinvest > 1 then "External Funding (>100%)"
  else "Moderate Reinvestment"

/-- Lexicographic comparison of character lists; on ISO-8601 date strings of
equal layout this is chronological order.  Used only to state the spec's
strictly-greater date comparison: the source itself never compares dates. -/
def charsLt : List Char → List Char → Bool
  | [], [] => false
  | [], _ :: _ => true
  | _ :: _, [] => false
  | a :: as, b :: bs => if a < b then true else if b < a then false else charsLt as bs

/-- Chronological order on ISO-8601 date strings (lexicographic). -/
def dateLt (a b : String) : Bool := charsLt a.data b.data

/-! ## Theorems -/

/-- Helper: the `headD 0` of a mapped window equals the map applied to the
window's first element. -/
theorem headD_map_of_head? {α β : Type} (f : α → β) (d : β) (w : List α) (r : α)
    (h : w.head? = some r) : (w.map f).headD d = f r := by
  cases w with
  | nil => simp at h
  | cons a t =>
    simp only [List.head?_cons, Option.some.injEq] at h
    simp [h]

/-- Helper: the `getLastD 0` of a mapped window equals the map applied to the
window's last element. -/
theorem getLastD_map_of_getLast? {α β : Type} (f : α → β) (d : β) (w : List α) (r : α)
    (h : w.getLast? = some r) : (w.map f).getLastD d = f r := by
  simp [List.getLastD_eq_getLast?, List.getLast?_map, h]

/-- Claim C1: over any analysis window with at least two periods, the
computed metrics agree with the reference definitions — `A1` is the sum of
FCF over the window, `B1 = FCF[last] − FCF[first]`, `A2 = IC[last] − IC[first]`,
`ROIIC = B1 / A2` when `A2 ≠ 0` and exactly `0` when `A2 = 0`,
`Reinvestment Rate = A2 / A1` when `A1 ≠ 0` and exactly `0` when `A1 = 0`,
and `Score = ROIIC × Reinvestment Rate`.  In the rational model the
zero-denominator cases return the exact value `0`; no division is performed
there, so nothing is raised and no NaN/Infinity can arise. -/
theorem c1_window_metrics (w : List Row) (firstRow lastRow : Row)
    (hlen : 2 ≤ w.length) (hfirst : w.head? = some firstRow)
    (hlast : w.getLast? = some lastRow) :
    (computeMetrics w).A1 = (w.map fcf).sum ∧
    (computeMetrics w).B1 = fcf lastRow - fcf firstRow ∧
    (computeMetrics w).A2 = ic lastRow - ic firstRow ∧
    ((computeMetrics w).A2 = 0 → (computeMetrics w).roiic = 0) ∧
    ((computeMetrics w).A2 ≠ 0 →
      (computeMetrics w).roiic = (computeMetrics w).B1 / (computeMetrics w).A2) ∧
    ((computeMetrics w).A1 = 0 → (computeMetrics w).reinvest = 0) ∧
    ((computeMetrics w).A1 ≠ 0 →
      (computeMetrics w).reinvest = (computeMetrics w).A2 / (computeMetrics w).A1) ∧
    (computeMetrics w).score = (computeMetrics w).roiic * (computeMetrics w).reinvest := by
  have hf := headD_map_of_head? fcf 0 w firstRow hfirst
  have hl := getLastD_map_of_getLast? fcf 0 w lastRow hlast
  have hfi := headD_map_of_head? ic 0 w firstRow hfirst
  have hli := getLastD_map_of_getLast? ic 0 w lastRow hlast
  simp only [computeMetrics, hf, hl, hfi, hli]
  refine ⟨trivial, trivial, trivial, ?_, ?_, ?_, ?_, trivial⟩ <;> intro h <;> simp [h]

/-- Window used to instantiate `c1_window_metrics`. -/
def rowStart : Row :=
  { ocf := 100, capex := -20, liabilities := 100, ppe := 0, goodwill := 0, currentAssets := 500 }

/-- Window used to instantiate `c1_window_metrics`. -/
def rowEnd : Row :=
  { ocf := 180, capex := -40, liabilities := 130, ppe := 0, goodwill := 0, currentAssets := 650 }

/-- Witness for `c1_window_metrics` at a concrete two-period window. -/
theorem c1_window_metrics_witness :
    (computeMetrics [rowStart, rowEnd]).A1 = ([rowStart, rowEnd].map fcf).sum ∧
    (computeMetrics [rowStart, rowEnd]).B1 = fcf rowEnd - fcf rowStart ∧
    (computeMetrics [rowStart, rowEnd]).A2 = ic rowEnd - ic rowStart ∧
    ((computeMetrics [rowStart, rowEnd]).A2 = 0 → (computeMetrics [rowStart, rowEnd]).roiic = 0) ∧
    ((computeMetrics [rowStart, rowEnd]).A2 ≠ 0 →
      (computeMetrics [rowStart, rowEnd]).roiic =
        (computeMetrics [rowStart, rowEnd]).B1 / (computeMetrics [rowStart, rowEnd]).A2) ∧
    ((computeMetrics [rowStart, rowEnd]).A1 = 0 → (computeMetrics [rowStart, rowEnd]).reinvest = 0) ∧
    ((computeMetrics [rowStart, rowEnd]).A1 ≠ 0 →
      (computeMetrics [rowStart, rowEnd]).reinvest =
        (computeMetrics [rowStart, rowEnd]).A2 / (computeMetrics [rowStart, rowEnd]).A1) ∧
    (computeMetrics [rowStart, rowEnd]).score =
      (computeMetrics [rowStart, rowEnd]).roiic * (computeMetrics [rowStart, rowEnd]).reinvest :=
  c1_window_metrics [rowStart, rowEnd] rowStart rowEnd (by decide) rfl rfl

/-- Claim C6: the verdict classifier at lines 819-826 is a function of the
reinvestment rate `C2` alone (its only argument), and for every rational
`C2` it lands in exactly one of the spec's four bins: Cash Cow iff
`C2 < 0.20`, Moderate Reinvestment iff `0.20 ≤ C2 < 0.80`, Aggressive
Compounder iff `0.80 ≤ C2 ≤ 1.00`, External Funding iff `C2 > 1.00`.
The four bins are mutually exclusive and exhaustive, so exactly one label
applies to each input. -/
theorem c6_classification (c2 : ℚ) :
    (verdict c2 = "Cash Cow" ↔ c2 < 1/5) ∧
    (verdict c2 = "Moderate Reinvestment" ↔ 1/5 ≤ c2 ∧ c2 < 4/5) ∧
    (verdict c2 = "Aggressive Compounder" ↔ 4/5 ≤ c2 ∧ c2 ≤ 1) ∧
    (verdict c2 = "External Funding (>100%)" ↔ 1 < c2) := by
  unfold verdict
  split_ifs with h1 h2 h3
  · exact ⟨iff_of_true rfl h1,
      iff_of_false (by decide) (fun hc => absurd h1 (not_lt.mpr hc.1)),
      iff_of_false (by decide) (fun hc => by linarith [hc.1]),
      iff_of_false (by decide) (fun hc => by linarith)⟩
  · exact ⟨iff_of_false (by decide) h1,
      iff_of_false (by decide) (fun hc => by linarith [h2.1, hc.2]),
      iff_of_true rfl h2,
      iff_of_false (by decide) (fun hc => by linarith [h2.2])⟩
  · exact ⟨iff_of_false (by decide) h1,
      iff_of_false (by decide) (fun hc => by linarith [hc.2]),
      iff_of_false (by decide) (fun hc => by exact h2 ⟨by linarith [hc.1], hc.2⟩),
      iff_of_true rfl h3⟩
  · push_neg at h1 h3
    have hlt : c2 < 4/5 := by
      by_contra hge
      push_neg at hge
      exact h2 ⟨hge, h3⟩
    exact ⟨iff_of_false (by decide) (not_lt.mpr h1),
      iff_of_true rfl ⟨h1, hlt⟩,
      iff_of_false (by decide) (fun hc => h2 ⟨hc.1, hc.2⟩),
      iff_of_false (by decide) (not_lt.mpr h3)⟩

/-- Claim C7: per period, `FCF = OperatingCashFlow − abs(CapEx)` (line 803),
and consequently the FCF series is invariant under negating the whole CapEx
series: `FCF(OCF, CapEx) = FCF(OCF, −CapEx)` for all OCF and CapEx series. -/
theorem c7_capex_sign_invariance :
    (∀ r : Row, fcf r = r.ocf - |r.capex|) ∧
    (∀ ocfS capexS : List ℚ, fcfSeries ocfS capexS = fcfSeries ocfS (capexS.map (fun x => -x))) := by
  refine ⟨fun r => rfl, fun ocfS capexS => ?_⟩
  simp [fcfSeries, List.zipWith_map_right, abs_neg]

/-- Claim C4 counterexample: `smart_get` matches field names with exact,
case-sensitive string comparison.  The raw field names `"CF_CFO"` and
`"cf_cfo"` differ only in letter case (lower-casing the first yields the
second), yet resolution of the operating-cash-flow aliases binds to the
series under `"cf_cfo"` and finds nothing under `"CF_CFO"`, so resolution is
not case-insensitive and case-variant field names do not yield the same
binding. -/
theorem c4_case_counterexample :
    "CF_CFO".data.map Char.toLower = "cf_cfo".data ∧
    smart_get [("CF_CFO", some [some (1:ℚ)])] cfoAliases = (none : Option PyVal) ∧
    smart_get [("cf_cfo", some [some (1:ℚ)])] cfoAliases = some (some [some (1:ℚ)]) := by
  refine ⟨by decide, by with_unfolding_all decide, by with_unfolding_all decide⟩

/-- Claim C4 (amended): for every concept, alias resolution binds to the
first alias in the candidate priority list that is present in the record set,
but presence is decided by exact, case-sensitive field-name comparison (the
Python `k in data_dict` dictionary test), not case-insensitively. -/
theorem c4_alias_resolution_amended {α : Type} (d : List (String × α)) (keys : List String) :
    smart_get d keys =
      (keys.find? (fun k => (d.lookup k).isSome)).bind (fun k => d.lookup k) := by
  induction keys with
  | nil => rfl
  | cons k ks ih =>
    cases h : d.lookup k with
    | some v => simp [smart_get, h, List.find?_cons, Option.isSome]
    | none => simp [smart_get, h, List.find?_cons, Option.isSome, ih]

/-- Claim C10: `smart_get` returns the value bound to the first candidate key
present in the mapping even when that value is `null` or an empty list, so a
higher-priority alias key carrying an empty value masks data stored under a
lower-priority alias; in that case `process_financials` reports the
required-annual-metrics failure for operating cash flow even though a later
alias holds a non-empty series (the later aliases are never consulted). -/
theorem c10_alias_masking :
    (∀ (d : List (String × PyVal)) (ks : List String) (v : PyVal),
      d.lookup "cf_cfo" = some v → smart_get d ("cf_cfo" :: ks) = some v) ∧
    (∀ raw : RawData, raw.annual.fields.lookup "cf_cfo" = some (some []) →
      process_financials raw = .error "Required annual metrics missing.") ∧
    (∀ raw : RawData, raw.annual.fields.lookup "cf_cfo" = some none →
      process_financials raw = .error "Required annual metrics missing.") := by
  have hsg : ∀ (d : List (String × PyVal)) (v : PyVal), d.lookup "cf_cfo" = some v →
      smart_get d cfoAliases = some v := by
    intro d v h
    simp [cfoAliases, smart_get, h]
  refine ⟨?_, ?_, ?_⟩
  · intro d ks v h
    simp [smart_get, h]
  · intro raw h
    simp [process_financials, hsg raw.annual.fields (some []) h]
  · intro raw h
    simp [process_financials, hsg raw.annual.fields none h]

/-- Raw data in which the first operating-cash-flow alias is present with an
empty series while a later alias holds a non-empty series. -/
def rawMasked : RawData :=
  { annual := { fields := [("cf_cfo", some []), ("cfo", some [some 7, some 8])],
                period_end_date := some ["2022-12-31", "2023-12-31"], fiscal_year := none },
    quarterly := { fields := [], period_end_date := none, fiscal_year := none } }

/-- Witness for `c10_alias_masking`: on `rawMasked`, where `"cf_cfo"` is bound
to an empty series and `"cfo"` holds `[7, 8]`, normalization still fails with
the required-annual-metrics error. -/
theorem c10_alias_masking_witness :
    rawMasked.annual.fields.lookup "cfo" = some (some [some 7, some 8]) ∧
    process_financials rawMasked = .error "Required annual metrics missing." :=
  ⟨by with_unfolding_all decide,
   c10_alias_masking.2.1 rawMasked (by with_unfolding_all decide)⟩

/-- A raw statement with no data at all. -/
def emptyStmt : RawStmt := { fields := [], period_end_date := none, fiscal_year := none }

/-- Annual data with capital expenditure and liabilities but no
operating-cash-flow alias. -/
def rawNoOCF : RawData :=
  { annual := { fields := [("capex", some [some 1, some 2]),
                           ("total_current_liabilities", some [some 3, some 4])],
                period_end_date := some ["2022-12-31", "2023-12-31"], fiscal_year := none },
    quarterly := emptyStmt }

/-- Annual data with operating cash flow but no date field. -/
def rawNoDates : RawData :=
  { annual := { fields := [("cf_cfo", some [some 1, some 2])],
                period_end_date := none, fiscal_year := none },
    quarterly := emptyStmt }

/-- Annual data with operating cash flow and dates but no asset, liability,
PPE or goodwill field of any kind. -/
def rawNoAssets : RawData :=
  { annual := { fields := [("cf_cfo", some [some 1, some 2])],
                period_end_date := some ["2022-12-31", "2023-12-31"], fiscal_year := none },
    quarterly := emptyStmt }

/-- Claim C8 counterexample: when the operating-cash-flow concept has no
matching alias, normalization fails with the fixed generic message
`"Required annual metrics missing."` — the very same string it returns when
the date field is what is missing — so the error names neither the unresolved
concept nor the alias names that were tried.  Moreover, raw data missing
every asset/component field does not fail at all: normalization proceeds with
zero-filled asset, liability, PPE and goodwill columns. -/
theorem c8_error_counterexample :
    process_financials rawNoOCF = .error "Required annual metrics missing." ∧
    process_financials rawNoDates = .error "Required annual metrics missing." ∧
    process_financials rawNoAssets = .ok
      ( { ocf := [some 1, some 2], capex := [0, 0], liabilities := [0, 0], ppe := [0, 0],
          goodwill := [0, 0], currentAssets := [0, 0], index := ["2022", "2023"] }, none ) := by
  refine ⟨by with_unfolding_all decide, by with_unfolding_all decide,
    by with_unfolding_all decide⟩

/-- Claim C8 (amended): whenever operating cash flow resolves to nothing (no
alias present, a `null` value, or an empty series) or the date field is
missing or empty, normalization fails with the fixed generic message
`"Required annual metrics missing."`, which names neither the unresolved
concept nor the aliases that were tried; missing asset-side fields are not
required and are zero-filled instead of failing. -/
theorem c8_missing_required_amended (raw : RawData)
    (h : falsy (smart_get raw.annual.fields cfoAliases) = true ∨ getDates raw.annual = []) :
    process_financials raw = .error "Required annual metrics missing." := by
  rcases h with h | h
  · cases hs : smart_get raw.annual.fields cfoAliases with
    | none => simp [process_financials, hs]
    | some v =>
      cases v with
      | none => simp [process_financials, hs]
      | some l =>
        rw [hs] at h
        simp only [falsy, List.isEmpty_iff] at h
        simp [process_financials, hs, h]
  · cases hs : smart_get raw.annual.fields cfoAliases with
    | none => simp [process_financials, hs]
    | some v =>
      cases v with
      | none => simp [process_financials, hs]
      | some l => simp [process_financials, hs, h]

/-- Witness for `c8_missing_required_amended` on raw data whose annual
statement has no operating-cash-flow alias. -/
theorem c8_missing_required_amended_witness :
    process_financials rawNoOCF = .error "Required annual metrics missing." :=
  c8_missing_required_amended rawNoOCF (Or.inl (by with_unfolding_all decide))

/-- An optional input series is compatible with the alignment width `n` when
it is absent, `null`, or empty (then `slice_and_fill` zero-fills it to width
`n`) or has at least `n` entries (then its most recent `n` entries are kept).
A non-empty series shorter than `n` is not compatible: its slice keeps its
original length and the DataFrame constructor raises. -/
def fillable (v : Option PyVal) (n : ℕ) : Bool :=
  match v with
  | some (some l) => l.isEmpty || Nat.ble n l.length
  | _ => true

/-- Helper: `lastN` keeps exactly `n` elements when the list has at least
`n` of them. -/
theorem lastN_length_of_le {α : Type} (l : List α) (n : ℕ) (h : n ≤ l.length) :
    (lastN l n).length = n := by
  simp only [lastN, List.length_drop]
  omega

/-- Helper: a compatible optional series is sliced-and-filled to exactly the
requested width. -/
theorem slice_and_fill_length (v : Option PyVal) (n : ℕ) (h : fillable v n = true) :
    (slice_and_fill v n).length = n := by
  match v with
  | none => simp [slice_and_fill]
  | some none => simp [slice_and_fill]
  | some (some l) =>
    simp only [fillable, Bool.or_eq_true, List.isEmpty_iff, Nat.ble_eq] at h
    rcases h with h | h
    · simp [slice_and_fill, h]
    · rcases Decidable.em (l = []) with he | he
      · simp [slice_and_fill, he]
      · simp only [slice_and_fill, List.isEmpty_iff, if_neg he, List.length_map]
        exact lastN_length_of_le l n h

/-- Annual data whose CapEx series (length 1) is strictly shorter than the
OCF and date series (length 3). -/
def rawShortCapex : RawData :=
  { annual := { fields := [("cf_cfo", some [some 1, some 2, some 3]),
                           ("capex", some [some 5])],
                period_end_date := some ["2021-12-31", "2022-12-31", "2023-12-31"],
                fiscal_year := none },
    quarterly := emptyStmt }

/-- Claim C2 counterexample: with an OCF series of length 3 and a CapEx
series of length 1, the minimum length over all input series is 1, so the
claim demands an aligned series of length 1 holding the most recent period of
each input.  The code instead sets `min_len = min(len(OCF), len(dates)) = 3`,
slices CapEx to its full length 1, and the DataFrame constructor raises
because the columns disagree in length, so normalization returns an error and
produces no aligned series at all. -/
theorem c2_alignment_counterexample :
    process_financials rawShortCapex = .error "All arrays must be of the same length" := by
  with_unfolding_all decide

/-- Claim C2 (amended): the aligned table's length is
`min_len = min(len(OCF), len(dates))` — not the minimum over all input
series.  When every optional input series is either empty/absent (zero-filled)
or at least `min_len` long, alignment succeeds: every column keeps exactly the
most recent `min_len` entries of its input, in the input's oldest-to-newest
order (optional-series nulls replaced by 0), and the index is the year prefix
of the most recent `min_len` dates.  A non-empty optional series shorter than
`min_len` instead makes normalization fail. -/
theorem c2_alignment_amended (cfo : List Val)
    (capex_a liab_a ca_a ppe_a goodwill_a : Option PyVal) (dates_a : List String)
    (h1 : fillable capex_a (min cfo.length dates_a.length) = true)
    (h2 : fillable liab_a (min cfo.length dates_a.length) = true)
    (h3 : fillable ca_a (min cfo.length dates_a.length) = true)
    (h4 : fillable ppe_a (min cfo.length dates_a.length) = true)
    (h5 : fillable goodwill_a (min cfo.length dates_a.length) = true) :
    build_annual cfo capex_a liab_a ca_a ppe_a goodwill_a dates_a =
      .ok (alignedTable cfo capex_a liab_a ca_a ppe_a goodwill_a dates_a) ∧
    (alignedTable cfo capex_a liab_a ca_a ppe_a goodwill_a dates_a).ocf =
      lastN cfo (min cfo.length dates_a.length) ∧
    (alignedTable cfo capex_a liab_a ca_a ppe_a goodwill_a dates_a).index =
      (lastN dates_a (min cfo.length dates_a.length)).map yearOf ∧
    (alignedTable cfo capex_a liab_a ca_a ppe_a goodwill_a dates_a).ocf.length =
      min cfo.length dates_a.length ∧
    (alignedTable cfo capex_a liab_a ca_a ppe_a goodwill_a dates_a).capex.length =
      min cfo.length dates_a.length ∧
    (alignedTable cfo capex_a liab_a ca_a ppe_a goodwill_a dates_a).liabilities.length =
      min cfo.length dates_a.length ∧
    (alignedTable cfo capex_a liab_a ca_a ppe_a goodwill_a dates_a).ppe.length =
      min cfo.length dates_a.length ∧
    (alignedTable cfo capex_a liab_a ca_a ppe_a goodwill_a dates_a).goodwill.length =
      min cfo.length dates_a.length ∧
    (alignedTable cfo capex_a liab_a ca_a ppe_a goodwill_a dates_a).currentAssets.length =
      min cfo.length dates_a.length ∧
    (alignedTable cfo capex_a liab_a ca_a ppe_a goodwill_a dates_a).index.length =
      min cfo.length dates_a.length := by
  have e1 := slice_and_fill_length capex_a _ h1
  have e2 := slice_and_fill_length liab_a _ h2
  have e3 := slice_and_fill_length ca_a _ h3
  have e4 := slice_and_fill_length ppe_a _ h4
  have e5 := slice_and_fill_length goodwill_a _ h5
  have eo : (lastN cfo (min cfo.length dates_a.length)).length =
      min cfo.length dates_a.length :=
    lastN_length_of_le cfo _ (Nat.min_le_left _ _)
  have ed : (lastN dates_a (min cfo.length dates_a.length)).length =
      min cfo.length dates_a.length :=
    lastN_length_of_le dates_a _ (Nat.min_le_right _ _)
  refine ⟨?_, rfl, rfl, eo, e1, e2, e4, e5, e3, ?_⟩
  · unfold build_annual
    rw [if_pos]
    exact ⟨e1, e2, e4, e5, e3⟩
  · simpa [alignedTable] using ed

/-- Witness for `c2_alignment_amended`: OCF of length 2, dates of length 2, a
CapEx series of length 3 (truncated to its most recent 2 entries), an empty
liabilities series (zero-filled) and absent asset components. -/
theorem c2_alignment_amended_witness :
    build_annual [some 1, some 2] (some (some [some 9, some 5, some 7])) (some (some []))
        none none none ["2022-12-31", "2023-12-31"] =
      .ok (alignedTable [some 1, some 2] (some (some [some 9, some 5, some 7]))
        (some (some [])) none none none ["2022-12-31", "2023-12-31"]) ∧
    (alignedTable [some 1, some 2] (some (some [some 9, some 5, some 7])) (some (some []))
        none none none ["2022-12-31", "2023-12-31"]).ocf =
      lastN [some 1, some 2]
        (min ([some (1:ℚ), some 2] : List Val).length ["2022-12-31", "2023-12-31"].length) ∧
    (alignedTable [some 1, some 2] (some (some [some 9, some 5, some 7])) (some (some []))
        none none none ["2022-12-31", "2023-12-31"]).index =
      (lastN ["2022-12-31", "2023-12-31"]
        (min ([some (1:ℚ), some 2] : List Val).length ["2022-12-31", "2023-12-31"].length)).map
        yearOf ∧
    (alignedTable [some 1, some 2] (some (some [some 9, some 5, some 7])) (some (some []))
        none none none ["2022-12-31", "2023-12-31"]).ocf.length =
      min ([some (1:ℚ), some 2] : List Val).length ["2022-12-31", "2023-12-31"].length ∧
    (alignedTable [some 1, some 2] (some (some [some 9, some 5, some 7])) (some (some []))
        none none none ["2022-12-31", "2023-12-31"]).capex.length =
      min ([some (1:ℚ), some 2] : List Val).length ["2022-12-31", "2023-12-31"].length ∧
    (alignedTable [some 1, some 2] (some (some [some 9, some 5, some 7])) (some (some []))
        none none none ["2022-12-31", "2023-12-31"]).liabilities.length =
      min ([some (1:ℚ), some 2] : List Val).length ["2022-12-31", "2023-12-31"].length ∧
    (alignedTable [some 1, some 2] (some (some [some 9, some 5, some 7])) (some (some []))
        none none none ["2022-12-31", "2023-12-31"]).ppe.length =
      min ([some (1:ℚ), some 2] : List Val).length ["2022-12-31", "2023-12-31"].length ∧
    (alignedTable [some 1, some 2] (some (some [some 9, some 5, some 7])) (some (some []))
        none none none ["2022-12-31", "2023-12-31"]).goodwill.length =
      min ([some (1:ℚ), some 2] : List Val).length ["2022-12-31", "2023-12-31"].length ∧
    (alignedTable [some 1, some 2] (some (some [some 9, some 5, some 7])) (some (some []))
        none none none ["2022-12-31", "2023-12-31"]).currentAssets.length =
      min ([some (1:ℚ), some 2] : List Val).length ["2022-12-31", "2023-12-31"].length ∧
    (alignedTable [some 1, some 2] (some (some [some 9, some 5, some 7])) (some (some []))
        none none none ["2022-12-31", "2023-12-31"]).index.length =
      min ([some (1:ℚ), some 2] : List Val).length ["2022-12-31", "2023-12-31"].length :=
  c2_alignment_amended [some 1, some 2] (some (some [some 9, some 5, some 7]))
    (some (some [])) none none none ["2022-12-31", "2023-12-31"]
    (by decide) (by decide) (by decide) (by decide) (by decide)

/-- Raw data whose quarterly records all pre-date the latest annual period:
the four quarters end 2019-06-30 … 2020-03-31 while the annual series runs to
2023-12-31, so a TTM snapshot synthesized from them has an effective date far
older than the latest annual period. -/
def rawStaleQuarters : RawData :=
  { annual := { fields := [("cf_cfo", some [some 10, some 20])],
                period_end_date := some ["2022-12-31", "2023-12-31"], fiscal_year := none },
    quarterly := { fields := [("cf_cfo", some [some 1, some 2, some 3, some 4])],
                   period_end_date := some ["2019-06-30", "2019-09-30", "2019-12-31",
                                           "2020-03-31"],
                   fiscal_year := none } }

/-- Claim C3 counterexample: on `rawStaleQuarters` the synthesized TTM
snapshot's effective date (the latest quarterly period end, 2020-03-31) is
strictly older than the latest annual period's date (2023-12-31), yet
`process_financials` still synthesizes a TTM row and the end-period `"TTM"`
concatenation appends it to the derived series, which is therefore changed.
The code performs no date comparison at all before appending. -/
theorem c3_ttm_date_counterexample :
    (rawStaleQuarters.quarterly.period_end_date.getD []).getLastD "" = "2020-03-31" ∧
    (getDates rawStaleQuarters.annual).getLastD "" = "2023-12-31" ∧
    dateLt "2023-12-31" "2020-03-31" = false ∧
    (process_financials rawStaleQuarters).toOption.map
      (fun p => ttmConcatIndex p.1 p.2 "TTM") = some ["2022", "2023", "TTM"] ∧
    (process_financials rawStaleQuarters).toOption.map (fun p => p.1.index) =
      some ["2022", "2023"] ∧
    (["2022", "2023", "TTM"] : List String) ≠ ["2022", "2023"] := by
  refine ⟨by decide, by with_unfolding_all decide, by decide,
    by with_unfolding_all decide, by with_unfolding_all decide, by decide⟩

/-- Replace the quarterly date fields of a raw response. -/
def setQuarterlyDates (raw : RawData) (d fy : Option (List String)) : RawData :=
  { raw with quarterly := { raw.quarterly with period_end_date := d, fiscal_year := fy } }

/-- Claim C3 (amended): the quarterly dates are never consulted —
`process_financials` returns the same result whatever the quarterly date
fields hold — so the TTM row is appended to the derived series exactly when a
TTM snapshot was synthesized (quarterly OCF truthy with at least 4 records)
and the selected end period is `"TTM"`, with no comparison of the TTM
effective date against the latest annual period's date; otherwise the derived
series is unchanged. -/
theorem c3_ttm_amended :
    (∀ (raw : RawData) (d fy : Option (List String)),
      process_financials (setQuarterlyDates raw d fy) = process_financials raw) ∧
    (∀ (df : DFAnnual) (t : TTMRow), ttmConcatIndex df (some t) "TTM" = df.index ++ ["TTM"]) ∧
    (∀ (df : DFAnnual) (t : Option TTMRow) (e : String), e ≠ "TTM" →
      ttmConcatIndex df t e = df.index) ∧
    (∀ df : DFAnnual, ttmConcatIndex df none "TTM" = df.index) := by
  refine ⟨fun raw d fy => rfl, fun df t => by simp [ttmConcatIndex],
    fun df t e h => by simp [ttmConcatIndex, h], fun df => by simp [ttmConcatIndex]⟩

/-- A concrete aligned annual table used to instantiate theorems. -/
def dfDemo : DFAnnual :=
  { ocf := [some 10, some 20], capex := [0, 0], liabilities := [0, 0], ppe := [0, 0],
    goodwill := [0, 0], currentAssets := [0, 0], index := ["2022", "2023"] }

/-- A concrete TTM row used to instantiate theorems. -/
def ttmDemo : TTMRow :=
  { ocf := 10, capex := 0, liabilities := some 0, currentAssets := some 0, ppe := 0,
    goodwill := 0 }

/-- Witness for `c3_ttm_amended` at concrete inputs: rewriting the quarterly
dates of `rawStaleQuarters` changes nothing, a synthesized TTM row is
appended under end period `"TTM"`, and a non-TTM end period leaves the series
unchanged. -/
theorem c3_ttm_amended_witness :
    process_financials (setQuarterlyDates rawStaleQuarters (some ["2031-12-31"]) none) =
      process_financials rawStaleQuarters ∧
    ttmConcatIndex dfDemo (some ttmDemo) "TTM" = dfDemo.index ++ ["TTM"] ∧
    ttmConcatIndex dfDemo (some ttmDemo) "2023" = dfDemo.index :=
  ⟨c3_ttm_amended.1 rawStaleQuarters (some ["2031-12-31"]) none,
   c3_ttm_amended.2.1 dfDemo ttmDemo,
   c3_ttm_amended.2.2.1 dfDemo (some ttmDemo) "2023" (by decide)⟩

/-- Annual data carrying a `total_assets` series but none of the
current-assets/PPE/goodwill component fields. -/
def rawSimpleIC : RawData :=
  { annual := { fields := [("cf_cfo", some [some 10, some 20]),
                           ("total_assets", some [some 100, some 200]),
                           ("total_current_liabilities", some [some 30, some 40])],
                period_end_date := some ["2022-12-31", "2023-12-31"], fiscal_year := none },
    quarterly := emptyStmt }

/-- The spec's simple Invested Capital strategy, stated from the spec's words
for comparison: `IC = TotalAssets − TotalCurrentLiabilities`. -/
def ic_simple (totalAssets liab : ℚ) : ℚ := totalAssets - liab

/-- Claim C5 counterexample: on raw data where the component fields are
absent but `total_assets` is present (values 100 and 200, liabilities 30 and
40), the claimed fallback `IC = TotalAssets − TotalCurrentLiabilities` would
give `[70, 160]`; the code instead zero-fills the absent components and
computes `IC = (0 − Liabilities) + 0 + 0 = [−30, −40]`.  There is no simple
IC strategy: `total_assets` is never read. -/
theorem c5_ic_fallback_counterexample :
    (process_financials rawSimpleIC).toOption.map (fun p => icCols p.1) =
      some [-30, -40] ∧
    List.zipWith ic_simple [100, 200] [30, 40] = [70, 160] ∧
    ([-30, -40] : List ℚ) ≠ [70, 160] := by
  refine ⟨by with_unfolding_all decide, by with_unfolding_all decide,
    by with_unfolding_all decide⟩

/-- Helper: looking up a key in an association list extended at the end with
a binding for a different key is unchanged. -/
theorem lookup_append_of_ne {α : Type} (d : List (String × α)) (k k0 : String) (v : α)
    (h : (k == k0) = false) : (d ++ [(k0, v)]).lookup k = d.lookup k := by
  induction d with
  | nil => simp [List.lookup, h]
  | cons p t ih =>
    cases p with
    | mk a b =>
      cases ha : (k == a) with
      | true => simp [List.lookup, ha]
      | false => simp [List.lookup, ha, ih]

/-- Helper: alias resolution is unchanged by appending a binding for a field
name that is not among the candidate aliases. -/
theorem smart_get_append_of_not_mem {α : Type} (d : List (String × α)) (keys : List String)
    (k0 : String) (v : α) (h : keys.all (fun k => k != k0) = true) :
    smart_get (d ++ [(k0, v)]) keys = smart_get d keys := by
  induction keys with
  | nil => rfl
  | cons k ks ih =>
    simp only [List.all_cons, Bool.and_eq_true] at h
    have hk : (k == k0) = false := by
      cases hkk : (k == k0) with
      | false => rfl
      | true => simp [bne, hkk] at h
    rw [smart_get, smart_get, lookup_append_of_ne d k k0 v hk]
    cases d.lookup k with
    | some w => rfl
    | none => exact ih h.2

/-- Extend the annual field dictionary with one extra binding. -/
def addAnnualField (raw : RawData) (k : String) (v : PyVal) : RawData :=
  { raw with annual := { raw.annual with fields := raw.annual.fields ++ [(k, v)] } }

/-- Claim C5 (amended): only the decomposed Invested Capital definition is
implemented — `IC = (TotalCurrentAssets − TotalCurrentLiabilities) + NetPPE +
Goodwill`, with absent component series zero-filled — and there is no
selectable simple-form strategy: a `total_assets` field in the raw annual
data is never read (adding one changes nothing), and when the component
fields are absent the PPE, goodwill and current-assets columns are zero, not
replaced by a `TotalAssets − Liabilities` computation. -/
theorem c5_ic_amended :
    (∀ (raw : RawData) (v : PyVal),
      process_financials (addAnnualField raw "total_assets" v) = process_financials raw) ∧
    (∀ r : Row, ic r = (r.currentAssets - r.liabilities) + r.ppe + r.goodwill) ∧
    (∀ (cfo : List Val) (capex_a liab_a : Option PyVal) (dates_a : List String),
      fillable capex_a (min cfo.length dates_a.length) = true →
      fillable liab_a (min cfo.length dates_a.length) = true →
      build_annual cfo capex_a liab_a none none none dates_a =
        .ok (alignedTable cfo capex_a liab_a none none none dates_a) ∧
      (alignedTable cfo capex_a liab_a none none none dates_a).ppe =
        List.replicate (min cfo.length dates_a.length) 0 ∧
      (alignedTable cfo capex_a liab_a none none none dates_a).goodwill =
        List.replicate (min cfo.length dates_a.length) 0 ∧
      (alignedTable cfo capex_a liab_a none none none dates_a).currentAssets =
        List.replicate (min cfo.length dates_a.length) 0) := by
  refine ⟨?_, fun r => rfl, ?_⟩
  · intro raw v
    simp only [process_financials, addAnnualField]
    rw [smart_get_append_of_not_mem raw.annual.fields cfoAliases "total_assets" v (by decide),
        smart_get_append_of_not_mem raw.annual.fields capexAliases "total_assets" v (by decide),
        smart_get_append_of_not_mem raw.annual.fields liabAliases "total_assets" v (by decide),
        smart_get_append_of_not_mem raw.annual.fields caAliases "total_assets" v (by decide),
        smart_get_append_of_not_mem raw.annual.fields ppeAliases "total_assets" v (by decide),
        smart_get_append_of_not_mem raw.annual.fields gwAliases "total_assets" v (by decide)]
    rfl
  · intro cfo capex_a liab_a dates_a h1 h2
    have hmain := c2_alignment_amended cfo capex_a liab_a none none none dates_a h1 h2
      (by simp [fillable]) (by simp [fillable]) (by simp [fillable])
    exact ⟨hmain.1, rfl, rfl, rfl⟩

/-- A concrete window row used to instantiate theorems. -/
def rowSample : Row :=
  { ocf := 1, capex := 2, liabilities := 3, ppe := 4, goodwill := 5, currentAssets := 6 }

/-- Witness for `c5_ic_amended` at concrete inputs: adding a `total_assets`
series to `rawSimpleIC` changes nothing, and building the annual table with
absent components zero-fills the PPE, goodwill and current-assets columns. -/
theorem c5_ic_amended_witness :
    process_financials (addAnnualField rawSimpleIC "total_assets" (some [some 999])) =
      process_financials rawSimpleIC ∧
    ic rowSample = (rowSample.currentAssets - rowSample.liabilities) + rowSample.ppe +
      rowSample.goodwill ∧
    build_annual [some 1, some 2] none none none none none ["2022-12-31", "2023-12-31"] =
      .ok (alignedTable [some 1, some 2] none none none none none
        ["2022-12-31", "2023-12-31"]) ∧
    (alignedTable [some 1, some 2] none none none none none
        ["2022-12-31", "2023-12-31"]).ppe =
      List.replicate
        (min ([some (1:ℚ), some 2] : List Val).length ["2022-12-31", "2023-12-31"].length) 0 ∧
    (alignedTable [some 1, some 2] none none none none none
        ["2022-12-31", "2023-12-31"]).goodwill =
      List.replicate
        (min ([some (1:ℚ), some 2] : List Val).length ["2022-12-31", "2023-12-31"].length) 0 ∧
    (alignedTable [some 1, some 2] none none none none none
        ["2022-12-31", "2023-12-31"]).currentAssets =
      List.replicate
        (min ([some (1:ℚ), some 2] : List Val).length ["2022-12-31", "2023-12-31"].length) 0 :=
  ⟨c5_ic_amended.1 rawSimpleIC (some [some 999]),
   c5_ic_amended.2.1 rowSample,
   (c5_ic_amended.2.2 [some 1, some 2] none none ["2022-12-31", "2023-12-31"]
     (by decide) (by decide)).1,
   (c5_ic_amended.2.2 [some 1, some 2] none none ["2022-12-31", "2023-12-31"]
     (by decide) (by decide)).2.1,
   (c5_ic_amended.2.2 [some 1, some 2] none none ["2022-12-31", "2023-12-31"]
     (by decide) (by decide)).2.2.1,
   (c5_ic_amended.2.2 [some 1, some 2] none none ["2022-12-31", "2023-12-31"]
     (by decide) (by decide)).2.2.2⟩

/-- A raw series slice contains no nulls. -/
def noNull (l : List Val) : Bool := l.all (fun x => x.isSome)

/-- The numeric sum of a raw series slice, nulls read as 0; on a null-free
slice this is what `pySum` returns. -/
def sumD (l : List Val) : ℚ := (l.map (fun x => x.getD 0)).sum

/-- Helper: on a null-free slice, Python's `sum` succeeds and returns the
numeric sum. -/
theorem pySum_eq_of_noNull (l : List Val) (h : noNull l = true) :
    pySum l = .ok (sumD l) := by
  induction l with
  | nil => simp [pySum, sumD]
  | cons x xs ih =>
    simp only [noNull, List.all_cons, Bool.and_eq_true] at h
    cases x with
    | none => simp at h
    | some q =>
      have hxs : pySum xs = .ok (sumD xs) := ih h.2
      simp only [pySum, hxs, sumD, List.map_cons, List.sum_cons]
      rfl

/-- The TTM CapEx value actually computed at line 233:
`sum(capex_q[-4:]) if capex_q else 0` — the sum of the most recent
`min(4, len)` quarters, `0` for an absent/null/empty series. -/
def capexTTM (capex_q : Option PyVal) : ℚ :=
  match capex_q with
  | some (some c) => if c.isEmpty then 0 else sumD (lastN c 4)
  | _ => 0

/-- The summed slice of the quarterly CapEx series is null-free (vacuously
true when the series is absent, null or empty). -/
def capexNoNull (capex_q : Option PyVal) : Bool :=
  match capex_q with
  | some (some c) => noNull (lastN c 4)
  | _ => true

/-- Annual data with a full 4-quarter OCF series but only 2 quarterly CapEx
records. -/
def rawShortQCapex : RawData :=
  { annual := { fields := [("cf_cfo", some [some 10, some 20])],
                period_end_date := some ["2022-12-31", "2023-12-31"], fiscal_year := none },
    quarterly := { fields := [("cf_cfo", some [some 1, some 2, some 3, some 4]),
                              ("capex", some [some 5, some 7])],
                   period_end_date := none, fiscal_year := none } }

/-- Claim C9 counterexample: the at-least-4-quarters requirement is enforced
only for OCF, not for every flow concept.  On `rawShortQCapex` the quarterly
CapEx series has just 2 records, yet the TTM row is still synthesized (not
omitted) and its CapEx value is `5 + 7 = 12`, the sum of only those two
quarters rather than of four. -/
theorem c9_ttm_flow_counterexample :
    smart_get rawShortQCapex.quarterly.fields capexAliases =
      some (some [some 5, some 7]) ∧
    ¬ 4 ≤ ([some (5:ℚ), some 7] : List Val).length ∧
    (process_financials rawShortQCapex).toOption.map
      (fun p => p.2.map (fun r => (r.ocf, r.capex))) = some (some (10, 12)) ∧
    (5 : ℚ) + 7 = 12 := by
  refine ⟨by with_unfolding_all decide, by decide, by with_unfolding_all decide,
    by with_unfolding_all decide⟩

/-- Claim C9 (amended): TTM synthesis is gated only on the quarterly OCF
series being present, non-empty and at least 4 records long; when the gate
fails the TTM row is simply omitted with no error.  When it passes, OCF is
the sum of the 4 most recent quarters, CapEx is the sum of the most recent
`min(4, len)` quarters of whatever CapEx series exists (`0` when absent or
empty — no 4-record requirement), and every stock concept (liabilities,
current assets, PPE, goodwill) is taken from the single most recent quarter
with no summation (`0` when its series is absent or empty). -/
theorem c9_ttm_synthesis_amended :
    (∀ capex_q liab_q ca_q ppe_q goodwill_q : Option PyVal,
      build_ttm none capex_q liab_q ca_q ppe_q goodwill_q = .ok none) ∧
    (∀ capex_q liab_q ca_q ppe_q goodwill_q : Option PyVal,
      build_ttm (some none) capex_q liab_q ca_q ppe_q goodwill_q = .ok none) ∧
    (∀ (l : List Val) (capex_q liab_q ca_q ppe_q goodwill_q : Option PyVal),
      l.length < 4 →
      build_ttm (some (some l)) capex_q liab_q ca_q ppe_q goodwill_q = .ok none) ∧
    (∀ (l : List Val) (capex_q liab_q ca_q ppe_q goodwill_q : Option PyVal),
      4 ≤ l.length → noNull (lastN l 4) = true → capexNoNull capex_q = true →
      build_ttm (some (some l)) capex_q liab_q ca_q ppe_q goodwill_q =
        .ok (some { ocf := sumD (lastN l 4), capex := capexTTM capex_q,
                    liabilities := lastOr0 liab_q, currentAssets := lastOr0 ca_q,
                    ppe := lastNum ppe_q, goodwill := lastNum goodwill_q })) := by
  refine ⟨fun _ _ _ _ _ => rfl, fun _ _ _ _ _ => rfl, ?_, ?_⟩
  · intro l capex_q liab_q ca_q ppe_q goodwill_q hlt
    have : ¬ (¬ l.isEmpty = true ∧ 4 ≤ l.length) := fun hc => absurd hc.2 (by omega)
    simp only [build_ttm, if_neg this]
    rfl
  · intro l capex_q liab_q ca_q ppe_q goodwill_q hge hnn hcn
    have hne : ¬ l.isEmpty = true := by
      cases l with
      | nil => simp at hge
      | cons a t => simp
    have hocf : pySum (lastN l 4) = .ok (sumD (lastN l 4)) := pySum_eq_of_noNull _ hnn
    simp only [build_ttm, if_pos (And.intro hne hge), hocf]
    cases capex_q with
    | none => simp [capexTTM]
    | some c =>
      cases c with
      | none => simp [capexTTM]
      | some cl =>
        rcases Decidable.em (cl.isEmpty = true) with he | he
        · simp [capexTTM, List.isEmpty_iff.mp he, if_pos, he]
        · have hcsum : pySum (lastN cl 4) = .ok (sumD (lastN cl 4)) :=
            pySum_eq_of_noNull _ (by simpa [capexNoNull] using hcn)
          simp only [capexTTM, he, hcsum, if_neg he, ite_false]
          rfl

/-- Witness for `c9_ttm_synthesis_amended` at concrete inputs: a 3-quarter
OCF series yields no TTM row and no error, and a 4-quarter OCF series with a
2-quarter CapEx series yields the TTM row with OCF summed over 4 quarters and
CapEx summed over the 2 existing quarters. -/
theorem c9_ttm_synthesis_amended_witness :
    build_ttm (some (some [some 1, some 2, some 3])) (some (some [some 5, some 7]))
      none none none none = .ok none ∧
    build_ttm (some (some [some 1, some 2, some 3, some 4]))
      (some (some [some 5, some 7])) (some (some [some 8])) none none none =
      .ok (some { ocf := sumD (lastN [some 1, some 2, some 3, some 4] 4),
                  capex := capexTTM (some (some [some 5, some 7])),
                  liabilities := lastOr0 (some (some [some 8])),
                  currentAssets := lastOr0 none,
                  ppe := lastNum none, goodwill := lastNum none }) :=
  ⟨c9_ttm_synthesis_amended.2.2.1 [some 1, some 2, some 3]
     (some (some [some 5, some 7])) none none none none (by decide),
   c9_ttm_synthesis_amended.2.2.2 [some 1, some 2, some 3, some 4]
     (some (some [some 5, some 7])) (some (some [some 8])) none none none
     (by decide) (by decide) (by decide)⟩

end Compounder
